import Mathlib

/-!
Verification development for the vocal-mirror audio cycle engine.

The development shallowly embeds the core engine of the repository:
* the bounded audio buffer (src/src/AudioBuffer.js, final revision with the
  discard-leading-silence flag),
* the silence tracker of the analyzer (src/src/AudioAnalyzer.ts),
* the settings merging of the analyzer and controller constructors,
* the cycle controller state machine (src/src/VocalMirror.ts).

Sample values and durations are modelled as rationals (the JavaScript
numbers involved), wall-clock timestamps as naturals (`Date.now()`
milliseconds), and the real-valued volume mathematics of the analyzer as
real numbers.  External collaborators (microphone, playback sink) are
modelled by boolean outcome parameters on the operations that consult
them, and callback invocations are modelled by counters in the state.
-/

namespace VocalMirrorSpec

/-! ## Bounded audio buffer (src/src/AudioBuffer.js)

One stored chunk: the copied sample data, its duration
(`audioData.length / sampleRate`), and the capture timestamp. -/

structure Chunk where
  data : List ℚ
  duration : ℚ
  timestamp : ℕ
deriving DecidableEq, Repr

/-- State of the bounded audio buffer, one field per instance field of the
source class. -/
structure AudioBuffer where
  maxDurationSeconds : ℚ
  chunks : List Chunk
  currentDuration : ℚ
  sampleRate : Option ℚ
  discardSilence : Bool
  hasReceivedAudio : Bool
deriving DecidableEq, Repr

/-- `new AudioBuffer(maxDurationSeconds)`. -/
def AudioBuffer.mk0 (maxDurationSeconds : ℚ) : AudioBuffer :=
  { maxDurationSeconds := maxDurationSeconds
    chunks := []
    currentDuration := 0
    sampleRate := none
    discardSilence := false
    hasReceivedAudio := false }

/-- The eviction loop `enforceMaxDuration`: while the running duration
exceeds the maximum and more than one chunk remains, drop the oldest
chunk and subtract its duration. -/
def enforceMaxDuration (maxD : ℚ) : List Chunk → ℚ → List Chunk × ℚ
  | [], dur => ([], dur)
  | [c], dur => ([c], dur)
  | c :: c2 :: rest, dur =>
    if maxD < dur then enforceMaxDuration maxD (c2 :: rest) (dur - c.duration)
    else (c :: c2 :: rest, dur)

/-- `addData(audioData, sampleRate, isSilent)`.  The source first records
the sample rate if unset, then (in discard-leading-silence mode with no
non-silent chunk seen yet) either drops a silent chunk or marks that audio
has been received, then appends the chunk and runs the eviction loop. -/
def AudioBuffer.addData (b : AudioBuffer) (audioData : List ℚ) (sampleRate : ℚ)
    (isSilent : Bool) (now : ℕ) : AudioBuffer :=
  let b := if b.sampleRate.isNone then { b with sampleRate := some sampleRate } else b
  if b.discardSilence && !b.hasReceivedAudio && isSilent then b
  else
    let b := if b.discardSilence && !b.hasReceivedAudio then
               { b with hasReceivedAudio := true } else b
    let chunkDuration : ℚ := (audioData.length : ℚ) / sampleRate
    let chunks := b.chunks ++ [⟨audioData, chunkDuration, now⟩]
    let dur := b.currentDuration + chunkDuration
    let res := enforceMaxDuration b.maxDurationSeconds chunks dur
    { b with chunks := res.1, currentDuration := res.2 }

/-- `getAllData()`: the early return for an empty buffer, then the copy
loop that lays the chunks out back to back in order. -/
def AudioBuffer.getAllData (b : AudioBuffer) : List ℚ :=
  if b.chunks.isEmpty then []
  else b.chunks.foldl (fun acc c => acc ++ c.data) []

/-- `clear()`. -/
def AudioBuffer.clear (b : AudioBuffer) : AudioBuffer :=
  { b with chunks := [], currentDuration := 0, hasReceivedAudio := false }

/-- `setDiscardInitialSilence(discard)`. -/
def AudioBuffer.setDiscardInitialSilence (b : AudioBuffer) (discard : Bool) : AudioBuffer :=
  let b := { b with discardSilence := discard }
  if discard then { b with hasReceivedAudio := false } else b

/-- `getDuration()`. -/
def AudioBuffer.getDuration (b : AudioBuffer) : ℚ := b.currentDuration

/-- `getSampleCount()`. -/
def AudioBuffer.getSampleCount (b : AudioBuffer) : ℕ :=
  b.chunks.foldl (fun sum c => sum + c.data.length) 0

/-- One `addData` call's arguments, for reasoning about call sequences. -/
structure BufInput where
  data : List ℚ
  sampleRate : ℚ
  isSilent : Bool
  now : ℕ
deriving DecidableEq, Repr

/-- Fold a sequence of `addData` calls over a buffer. -/
def runBuffer (b : AudioBuffer) (inputs : List BufInput) : AudioBuffer :=
  inputs.foldl (fun b i => b.addData i.data i.sampleRate i.isSilent i.now) b

/-- Total duration of a chunk list. -/
def durSum (cs : List Chunk) : ℚ := (cs.map Chunk.duration).sum

/-- Total duration the inputs would contribute if all were appended. -/
def inputDurSum (inputs : List BufInput) : ℚ :=
  (inputs.map (fun i => (i.data.length : ℚ) / i.sampleRate)).sum

/-- The bookkeeping invariant of the buffer: the running total equals the
sum of the stored chunks' durations, and either the total is within the
maximum or a single oversized chunk is stored. -/
def BufInv (b : AudioBuffer) : Prop :=
  b.currentDuration = durSum b.chunks ∧
  (b.currentDuration ≤ b.maxDurationSeconds ∨
    ∃ c, b.chunks = [c] ∧ b.maxDurationSeconds < c.duration)

/-- The one piece of buffer state the claims do not observe is the
write-once `sampleRate` field: it is recorded even for a discarded chunk,
but it is never read by any buffer operation.  `sameObs` relates buffers
that agree on everything except that dead field. -/
def sameObs (a b : AudioBuffer) : Prop :=
  a.maxDurationSeconds = b.maxDurationSeconds ∧ a.chunks = b.chunks ∧
  a.currentDuration = b.currentDuration ∧ a.discardSilence = b.discardSilence ∧
  a.hasReceivedAudio = b.hasReceivedAudio

/-! ## Silence tracking (src/src/AudioAnalyzer.ts, `trackSilence`)

Wall-clock milliseconds (`Date.now()`) are naturals.  `trackSilence`
receives the silence classification of the current chunk and the current
time; it returns the updated tracker state and whether a SilenceEvent was
emitted (`onSilenceDetected` invoked). -/

structure SilenceTracker where
  silenceDuration : ℕ
  isCurrentlySilent : Bool
  silenceStartTime : ℕ
deriving DecidableEq, Repr

def trackSilence (st : SilenceTracker) (isSilent : Bool) (now : ℕ) :
    SilenceTracker × Bool :=
  if isSilent then
    let st := if !st.isCurrentlySilent then
                { st with silenceStartTime := now, isCurrentlySilent := true }
              else st
    if st.silenceDuration ≤ now - st.silenceStartTime then
      ({ st with silenceStartTime := now }, true)
    else (st, false)
  else
    (if st.isCurrentlySilent then { st with isCurrentlySilent := false } else st, false)

/-- `reset()` of the analyzer, restricted to the silence-tracking state. -/
def SilenceTracker.reset (st : SilenceTracker) : SilenceTracker :=
  { st with isCurrentlySilent := false, silenceStartTime := 0 }

/-- Feed `n` silent chunks, the k-th analyzed at time `t0 + k * d`
(a constant stream of silent chunks of fixed duration `d`).  Returns the
final tracker state and the number of SilenceEvents emitted. -/
def runSilent (t0 d : ℕ) (st : SilenceTracker) : ℕ → SilenceTracker × ℕ
  | 0 => (st, 0)
  | n + 1 =>
    let p := runSilent t0 d st n
    let q := trackSilence p.1 true (t0 + n * d)
    (q.1, p.2 + if q.2 then 1 else 0)

/-! ## Volume mathematics (src/src/AudioAnalyzer.ts)

`calculateVolume` computes the RMS of a chunk; `amplitudeToDb` converts a
linear amplitude to decibels, with −∞ (modelled as `⊥` in `WithBot ℝ`)
at amplitude exactly 0. -/

noncomputable def calculateVolume (audioData : List ℝ) : ℝ :=
  Real.sqrt ((audioData.foldl (fun acc sample => acc + sample * sample) 0)
    / audioData.length)

noncomputable def amplitudeToDb (amplitude : ℝ) : WithBot ℝ :=
  if amplitude = 0 then ⊥ else ((20 * Real.logb 10 amplitude : ℝ) : WithBot ℝ)

/-! ## Settings merge (constructors and `updateSettings`)

The AudioAnalyzer and VocalMirror constructors merge options with
JavaScript's `||`, so the explicit value 0 (falsy) falls back to the
default; `updateSettings` instead applies any value that is not
`undefined`, including 0. -/

structure AnalyzerConfig where
  volumeThreshold : ℚ
  silenceDuration : ℚ
deriving DecidableEq, Repr

/-- JavaScript's `x || dflt` for an optional numeric option: `undefined`
and the falsy value 0 both yield the default. -/
def jsOrDefault (x : Option ℚ) (dflt : ℚ) : ℚ :=
  match x with
  | none => dflt
  | some v => if v = 0 then dflt else v

/-- `RECORDING_CONFIG.DEFAULT_VOLUME_THRESHOLD` (dB). -/
def DEFAULT_VOLUME_THRESHOLD : ℚ := -50

/-- `RECORDING_CONFIG.DEFAULT_SILENCE_DURATION` (ms). -/
def DEFAULT_SILENCE_DURATION : ℚ := 500

/-- The AudioAnalyzer constructor's option merge. -/
def AnalyzerConfig.ofOptions (volumeThreshold silenceDuration : Option ℚ) : AnalyzerConfig :=
  { volumeThreshold := jsOrDefault volumeThreshold DEFAULT_VOLUME_THRESHOLD
    silenceDuration := jsOrDefault silenceDuration DEFAULT_SILENCE_DURATION }

/-- The VocalMirror constructor's option merge for the two analyzer
settings (the merged values are handed to the analyzer). -/
def vocalMirrorSettings (volumeThreshold silenceDuration : Option ℚ) : ℚ × ℚ :=
  (jsOrDefault volumeThreshold DEFAULT_VOLUME_THRESHOLD,
   jsOrDefault silenceDuration DEFAULT_SILENCE_DURATION)

/-- `updateSettings`: each field is applied whenever the option is not
`undefined`, including the value 0. -/
def AnalyzerConfig.updateSettings (c : AnalyzerConfig)
    (volumeThreshold silenceDuration : Option ℚ) : AnalyzerConfig :=
  let c := match volumeThreshold with
           | some v => { c with volumeThreshold := v }
           | none => c
  match silenceDuration with
  | some v => { c with silenceDuration := v }
  | none => c

/-! ## Cycle controller (src/src/VocalMirror.ts)

The controller's collaborators are modelled by the state they keep in the
embedded classes: `recorderRecording` is the recorder's `isRecording`,
`playbackPlaying` is the playback driver's `isPlaying`.  Calls that cross
the boundary are modelled by counters: `recorderStopCalls` counts the
stops that reach a running recorder (`notifyStateChange('stopped')`),
`playbackStopCalls` counts invocations of `playback.stop()`, and
`errorCalls` counts invocations of the `onError` callback.  The outcomes
of the external sink and device operations are boolean parameters on the
operations that consult them. -/

inductive VMState
  | ready
  | listening
  | recording
  | playing
  | error
deriving DecidableEq, Repr

structure MirrorState where
  state : VMState
  buffer : AudioBuffer
  maxRecordingDuration : ℚ
  isInitialized : Bool
  recorderRecording : Bool
  recorderStopCalls : ℕ
  playbackPlaying : Bool
  playbackStopCalls : ℕ
  analyzerSilent : Bool
  analyzerStartTime : ℕ
  errorCalls : ℕ
deriving DecidableEq, Repr

/-- `setState(newState)` (the `onStateChange` notification carries no
controller state). -/
def setState (m : MirrorState) (s : VMState) : MirrorState := { m with state := s }

/-- `recorder.stopRecording()`: a no-op unless the recorder is recording. -/
def recorderStopRecording (m : MirrorState) : MirrorState :=
  if m.recorderRecording then
    { m with recorderRecording := false, recorderStopCalls := m.recorderStopCalls + 1 }
  else m

/-- `playback.stop()`: always leaves the driver not playing; each
invocation is counted. -/
def playbackStop (m : MirrorState) : MirrorState :=
  { m with playbackPlaying := false, playbackStopCalls := m.playbackStopCalls + 1 }

/-- `analyzer.reset()` restricted to the silence-tracking state. -/
def analyzerReset (m : MirrorState) : MirrorState :=
  { m with analyzerSilent := false, analyzerStartTime := 0 }

/-- `handleError`: enter the `error` state, then invoke the `onError`
callback. -/
def handleError (m : MirrorState) : MirrorState :=
  { setState m .error with errorCalls := m.errorCalls + 1 }

/-- `stop()`: stop capture (in `listening`/`recording`) or playback (in
`playing`), clear the buffer, and set state `ready` — unconditionally. -/
def VocalMirror.stop (m : MirrorState) : MirrorState :=
  let m :=
    if m.state = .listening ∨ m.state = .recording then recorderStopRecording m
    else if m.state = .playing then playbackStop m
    else m
  let m := { m with buffer := m.buffer.clear }
  setState m .ready

/-- `playback.playAudio(...)`: stops any current playback first, then
engages the sink; `sinkOk` is the sink's outcome.  On failure the
`onPlaybackError` callback funnels into `handleError` before `playAudio`
returns `false`. -/
def pbPlayAudio (sinkOk : Bool) (m : MirrorState) : Bool × MirrorState :=
  let m := playbackStop m
  if sinkOk then (true, { m with playbackPlaying := true })
  else (false, handleError m)

/-- `doTriggerPlayback()`: no-op on an empty buffer; otherwise enter
`playing`, start playback, and fall back to `ready` if `playAudio`
reported failure. -/
def doTriggerPlayback (sinkOk : Bool) (m : MirrorState) : MirrorState :=
  if m.buffer.getDuration = 0 then m
  else
    let m := setState m .playing
    let r := pbPlayAudio sinkOk m
    if !r.1 then setState r.2 .ready else r.2

/-- `autoStartListening()`: clear the buffer, re-enable leading-silence
discard, reset the analyzer, restart the (still running) recorder, and
enter `listening` on success (`ready` otherwise).  `recStartOk` is the
outcome of `recorder.startRecording()`. -/
def autoStartListening (recStartOk : Bool) (m : MirrorState) : MirrorState :=
  let m := { m with buffer := (m.buffer.clear).setDiscardInitialSilence true }
  let m := analyzerReset m
  let m := if recStartOk then { m with recorderRecording := true } else m
  setState m (if recStartOk then .listening else .ready)

/-- `initialize()`: on success mark initialized and enter `ready`; on
failure funnel into `handleError`.  `devicesOk` is the combined outcome of
the recorder and playback device setup. -/
def VocalMirror.initialize (devicesOk : Bool) (m : MirrorState) : MirrorState :=
  if devicesOk then setState { m with isInitialized := true } .ready
  else handleError m

/-- `startRecording()` (the public start command): initialize first if
needed, then start the recorder; on success clear the buffer, enable
leading-silence discard, reset the analyzer, and enter `listening`. -/
def VocalMirror.startRecording (devicesOk recStartOk : Bool) (m : MirrorState) : MirrorState :=
  if !m.isInitialized && !devicesOk then VocalMirror.initialize devicesOk m
  else
    let m := if m.isInitialized then m else VocalMirror.initialize devicesOk m
    if recStartOk then
      let m := { m with recorderRecording := true }
      let m := { m with buffer := (m.buffer.clear).setDiscardInitialSilence true }
      let m := analyzerReset m
      setState m .listening
    else m

/-- `transitionToRecording()`. -/
def transitionToRecording (m : MirrorState) : MirrorState :=
  if m.state = .listening then setState m .recording else m

/-- `handleAudioData(audioData, sampleRate)`: the per-chunk driver of the
state machine.  The analyzer's classification (`analysis.isSilent ||
false`) is passed in as `isSilent`; the silence-event callback the
analyzer may fire during `analyze` acts only in the `recording` state
(`handleSilenceDetected`) and is modelled separately from this
per-chunk path. -/
def VocalMirror.handleAudioData (m : MirrorState) (audioData : List ℚ) (sampleRate : ℚ)
    (isSilent : Bool) (now : ℕ) (recStartOk sinkOk : Bool) : MirrorState :=
  if m.state ≠ .listening ∧ m.state ≠ .recording ∧ m.state ≠ .playing then m
  else
    let isAboveThreshold := !isSilent
    if m.state = .listening then
      if isAboveThreshold then
        let m := transitionToRecording m
        { m with buffer := m.buffer.addData audioData sampleRate isSilent now }
      else m
    else if m.state = .recording then
      let m := { m with buffer := m.buffer.addData audioData sampleRate isSilent now }
      if m.maxRecordingDuration ≤ m.buffer.getDuration then doTriggerPlayback sinkOk m
      else m
    else
      if isAboveThreshold then
        let m := playbackStop m
        autoStartListening recStartOk m
      else m

/-- A concrete non-empty buffer used by the concrete controller states
below. -/
def sampleBuffer : AudioBuffer :=
  { maxDurationSeconds := 300
    chunks := [⟨[1], 1, 0⟩]
    currentDuration := 1
    sampleRate := some 44100
    discardSilence := false
    hasReceivedAudio := true }

/-- A concrete controller state sitting in the `error` state. -/
def errorMirror : MirrorState :=
  { state := .error
    buffer := sampleBuffer
    maxRecordingDuration := 300
    isInitialized := true
    recorderRecording := false
    recorderStopCalls := 0
    playbackPlaying := false
    playbackStopCalls := 0
    analyzerSilent := false
    analyzerStartTime := 0
    errorCalls := 1 }

/-- A concrete controller state in `recording` with a non-empty buffer. -/
def recordingMirror : MirrorState :=
  { state := .recording
    buffer := sampleBuffer
    maxRecordingDuration := 300
    isInitialized := true
    recorderRecording := true
    recorderStopCalls := 0
    playbackPlaying := false
    playbackStopCalls := 0
    analyzerSilent := false
    analyzerStartTime := 0
    errorCalls := 0 }

/-- A concrete controller state in `playing`. -/
def playingMirror : MirrorState :=
  { state := .playing
    buffer := sampleBuffer
    maxRecordingDuration := 300
    isInitialized := true
    recorderRecording := true
    recorderStopCalls := 0
    playbackPlaying := true
    playbackStopCalls := 0
    analyzerSilent := false
    analyzerStartTime := 0
    errorCalls := 0 }

/-- A concrete controller state in `ready`, initialized. -/
def readyMirror : MirrorState :=
  { state := .ready
    buffer := AudioBuffer.mk0 300
    maxRecordingDuration := 300
    isInitialized := true
    recorderRecording := false
    recorderStopCalls := 0
    playbackPlaying := false
    playbackStopCalls := 0
    analyzerSilent := false
    analyzerStartTime := 0
    errorCalls := 0 }

/-- A concrete controller state in `listening` with an empty buffer in
discard mode. -/
def listeningMirror : MirrorState :=
  { state := .listening
    buffer := (AudioBuffer.mk0 300).setDiscardInitialSilence true
    maxRecordingDuration := 300
    isInitialized := true
    recorderRecording := true
    recorderStopCalls := 0
    playbackPlaying := false
    playbackStopCalls := 0
    analyzerSilent := false
    analyzerStartTime := 0
    errorCalls := 0 }


/-! ### Basic lemmas about the eviction loop -/

theorem enforceMaxDuration_durSum (maxD : ℚ) :
    ∀ (cs : List Chunk) (dur : ℚ), dur = durSum cs →
      (enforceMaxDuration maxD cs dur).2 = durSum (enforceMaxDuration maxD cs dur).1
  | [], dur, h => h
  | [c], dur, h => h
  | c :: c2 :: rest, dur, h => by
    rw [enforceMaxDuration]
    split
    · exact enforceMaxDuration_durSum maxD (c2 :: rest) (dur - c.duration)
        (by simp [durSum] at h ⊢; linarith)
    · exact h

theorem enforceMaxDuration_bound (maxD : ℚ) :
    ∀ (cs : List Chunk) (dur : ℚ),
      (enforceMaxDuration maxD cs dur).2 ≤ maxD ∨
        (enforceMaxDuration maxD cs dur).1.length ≤ 1
  | [], dur => by
    rw [enforceMaxDuration]
    right; simp
  | [c], dur => by
    rw [enforceMaxDuration]
    right; simp
  | c :: c2 :: rest, dur => by
    rw [enforceMaxDuration]
    split
    · exact enforceMaxDuration_bound maxD (c2 :: rest) (dur - c.duration)
    · left; linarith [not_lt.mp (by assumption : ¬ maxD < dur)]

theorem enforceMaxDuration_ne_nil (maxD : ℚ) :
    ∀ (cs : List Chunk) (dur : ℚ), cs ≠ [] →
      (enforceMaxDuration maxD cs dur).1 ≠ []
  | [], dur, h => absurd rfl h
  | [c], dur, _ => by rw [enforceMaxDuration]; simp
  | c :: c2 :: rest, dur, _ => by
    rw [enforceMaxDuration]
    split
    · exact enforceMaxDuration_ne_nil maxD (c2 :: rest) (dur - c.duration) (by simp)
    · simp

theorem enforceMaxDuration_getLast (maxD : ℚ) :
    ∀ (cs : List Chunk) (dur : ℚ), cs ≠ [] →
      (enforceMaxDuration maxD cs dur).1.getLast? = cs.getLast?
  | [], dur, h => absurd rfl h
  | [c], dur, _ => by rw [enforceMaxDuration]
  | c :: c2 :: rest, dur, _ => by
    rw [enforceMaxDuration]
    split
    · rw [enforceMaxDuration_getLast maxD (c2 :: rest) (dur - c.duration) (by simp)]
      simp [List.getLast?_cons_cons]
    · rfl

/-- If the running duration is already within the maximum, the eviction
loop changes nothing. -/
theorem enforceMaxDuration_noop (maxD : ℚ) :
    ∀ (cs : List Chunk) (dur : ℚ), dur ≤ maxD →
      enforceMaxDuration maxD cs dur = (cs, dur)
  | [], dur, _ => rfl
  | [c], dur, _ => rfl
  | c :: c2 :: rest, dur, h => by
    rw [enforceMaxDuration, if_neg (not_lt.mpr h)]

theorem durSum_append (cs : List Chunk) (c : Chunk) :
    durSum (cs ++ [c]) = durSum cs + c.duration := by
  simp [durSum]

theorem BufInv_mk0 (maxD : ℚ) (h : 0 ≤ maxD) : BufInv (AudioBuffer.mk0 maxD) := by
  constructor
  · simp [AudioBuffer.mk0, durSum]
  · left; simpa [AudioBuffer.mk0] using h

/-- Characterization of `addData` on the discard path: a silent chunk
arriving in discard-leading-silence mode before any non-silent one only
(possibly) latches the sample rate. -/
theorem addData_eq_drop (b : AudioBuffer) (data : List ℚ) (rate : ℚ) (now : ℕ)
    (h1 : b.discardSilence = true) (h2 : b.hasReceivedAudio = false) :
    b.addData data rate true now
      = { b with sampleRate := if b.sampleRate.isNone then some rate else b.sampleRate } := by
  obtain ⟨maxD, chunks, dur, sr, ds, hra⟩ := b
  unfold AudioBuffer.addData
  cases sr <;> simp_all

/-- Characterization of `addData` on the append path: the chunk is stored,
the running duration grows by its duration, the eviction loop runs, and
the has-received flag absorbs the discard flag. -/
theorem addData_eq_append (b : AudioBuffer) (data : List ℚ) (rate : ℚ)
    (s : Bool) (now : ℕ)
    (h : b.discardSilence = false ∨ b.hasReceivedAudio = true ∨ s = false) :
    b.addData data rate s now
      = { b with
          sampleRate := if b.sampleRate.isNone then some rate else b.sampleRate,
          hasReceivedAudio := b.hasReceivedAudio || b.discardSilence,
          chunks := (enforceMaxDuration b.maxDurationSeconds
            (b.chunks ++ [⟨data, (data.length : ℚ) / rate, now⟩])
            (b.currentDuration + (data.length : ℚ) / rate)).1,
          currentDuration := (enforceMaxDuration b.maxDurationSeconds
            (b.chunks ++ [⟨data, (data.length : ℚ) / rate, now⟩])
            (b.currentDuration + (data.length : ℚ) / rate)).2 } := by
  obtain ⟨maxD, chunks, dur, sr, ds, hra⟩ := b
  unfold AudioBuffer.addData
  cases sr <;> cases ds <;> cases hra <;> cases s <;> simp_all

/-- Tiny boolean helper: negation of the discard condition. -/
theorem not_drop_cond {d r s : Bool} (h : ¬(d = true ∧ r = false ∧ s = true)) :
    d = false ∨ r = true ∨ s = false := by
  cases d <;> cases r <;> cases s <;> simp_all

theorem addData_discardSilence (b : AudioBuffer) (data : List ℚ) (rate : ℚ)
    (s : Bool) (now : ℕ) :
    (b.addData data rate s now).discardSilence = b.discardSilence := by
  by_cases hdrop : b.discardSilence = true ∧ b.hasReceivedAudio = false ∧ s = true
  · obtain ⟨hd, hr, hs⟩ := hdrop
    rw [hs, addData_eq_drop b data rate now hd hr]
  · rw [addData_eq_append b data rate s now (not_drop_cond hdrop)]

theorem addData_maxDuration (b : AudioBuffer) (data : List ℚ) (rate : ℚ)
    (s : Bool) (now : ℕ) :
    (b.addData data rate s now).maxDurationSeconds = b.maxDurationSeconds := by
  by_cases hdrop : b.discardSilence = true ∧ b.hasReceivedAudio = false ∧ s = true
  · obtain ⟨hd, hr, hs⟩ := hdrop
    rw [hs, addData_eq_drop b data rate now hd hr]
  · rw [addData_eq_append b data rate s now (not_drop_cond hdrop)]

theorem BufInv_addData (b : AudioBuffer) (data : List ℚ) (rate : ℚ)
    (s : Bool) (now : ℕ) (h : BufInv b) : BufInv (b.addData data rate s now) := by
  obtain ⟨h1, h2⟩ := h
  by_cases hdrop : b.discardSilence = true ∧ b.hasReceivedAudio = false ∧ s = true
  · obtain ⟨hd, hr, hs⟩ := hdrop
    rw [hs, addData_eq_drop b data rate now hd hr]
    exact ⟨h1, by simpa using h2⟩
  · rw [addData_eq_append b data rate s now (not_drop_cond hdrop)]
    have hds := enforceMaxDuration_durSum b.maxDurationSeconds
      (b.chunks ++ [⟨data, (data.length : ℚ) / rate, now⟩])
      (b.currentDuration + (data.length : ℚ) / rate)
      (by rw [durSum_append, h1])
    refine ⟨hds, ?_⟩
    by_cases hle : (enforceMaxDuration b.maxDurationSeconds
        (b.chunks ++ [⟨data, (data.length : ℚ) / rate, now⟩])
        (b.currentDuration + (data.length : ℚ) / rate)).2 ≤ b.maxDurationSeconds
    · left; exact hle
    · right
      rcases enforceMaxDuration_bound b.maxDurationSeconds
        (b.chunks ++ [⟨data, (data.length : ℚ) / rate, now⟩])
        (b.currentDuration + (data.length : ℚ) / rate) with hb | hb
      · exact absurd hb hle
      · have hne := enforceMaxDuration_ne_nil b.maxDurationSeconds
          (b.chunks ++ [⟨data, (data.length : ℚ) / rate, now⟩])
          (b.currentDuration + (data.length : ℚ) / rate) (by simp)
        match hcs : (enforceMaxDuration b.maxDurationSeconds
            (b.chunks ++ [⟨data, (data.length : ℚ) / rate, now⟩])
            (b.currentDuration + (data.length : ℚ) / rate)).1, hne, hb with
        | [], hne, _ => exact absurd hcs hne
        | c :: c2 :: rest, _, hb => rw [hcs] at hb; simp at hb
        | [c], _, _ =>
          refine ⟨c, hcs, ?_⟩
          rw [hcs] at hds
          have hc : (enforceMaxDuration b.maxDurationSeconds
              (b.chunks ++ [⟨data, (data.length : ℚ) / rate, now⟩])
              (b.currentDuration + (data.length : ℚ) / rate)).2 = c.duration := by
            rw [hds]; simp [durSum]
          rw [← hc]
          exact lt_of_not_le hle

theorem runBuffer_nil (b : AudioBuffer) : runBuffer b [] = b := rfl

theorem runBuffer_cons (b : AudioBuffer) (i : BufInput) (l : List BufInput) :
    runBuffer b (i :: l) = runBuffer (b.addData i.data i.sampleRate i.isSilent i.now) l := rfl

theorem BufInv_runBuffer (l : List BufInput) :
    ∀ b : AudioBuffer, BufInv b → BufInv (runBuffer b l)
  | b, h => by
    cases l with
    | nil => exact h
    | cons i t =>
      rw [runBuffer_cons]
      exact BufInv_runBuffer t _ (BufInv_addData b i.data i.sampleRate i.isSilent i.now h)

theorem runBuffer_discardSilence (l : List BufInput) :
    ∀ b : AudioBuffer, (runBuffer b l).discardSilence = b.discardSilence
  | b => by
    cases l with
    | nil => rfl
    | cons i t =>
      rw [runBuffer_cons, runBuffer_discardSilence t]
      exact addData_discardSilence b i.data i.sampleRate i.isSilent i.now

theorem runBuffer_maxDuration (l : List BufInput) :
    ∀ b : AudioBuffer, (runBuffer b l).maxDurationSeconds = b.maxDurationSeconds
  | b => by
    cases l with
    | nil => rfl
    | cons i t =>
      rw [runBuffer_cons, runBuffer_maxDuration t]
      exact addData_maxDuration b i.data i.sampleRate i.isSilent i.now

theorem addData_ne_nil (b : AudioBuffer) (data : List ℚ) (rate : ℚ)
    (s : Bool) (now : ℕ) (hd : b.discardSilence = false) :
    (b.addData data rate s now).chunks ≠ [] := by
  rw [addData_eq_append b data rate s now (Or.inl hd)]
  exact enforceMaxDuration_ne_nil _ _ _ (by simp)

theorem runBuffer_ne_nil (l : List BufInput) :
    ∀ b : AudioBuffer, b.discardSilence = false → b.chunks ≠ [] ∨ l ≠ [] →
      (runBuffer b l).chunks ≠ []
  | b, hd, h => by
    cases l with
    | nil => exact h.resolve_right (by simp)
    | cons i t =>
      rw [runBuffer_cons]
      exact runBuffer_ne_nil t _
        (by rw [addData_discardSilence]; exact hd)
        (Or.inl (addData_ne_nil b i.data i.sampleRate i.isSilent i.now hd))

/-- C3: for every sequence of `addData` calls on a freshly constructed
bounded buffer, after each call (i.e. for every prefix of the call
sequence) the running total equals the stored chunks' total duration and
is at most the configured maximum — except when a single chunk alone
exceeds the maximum, in which case exactly that one oversized chunk is
retained; moreover eviction never empties the buffer: after at least one
call the chunk list is non-empty. -/
theorem claim_C3 (maxD : ℚ) (inputs : List BufInput) (n : ℕ) (hmax : 0 ≤ maxD) :
    (runBuffer (AudioBuffer.mk0 maxD) (inputs.take n)).currentDuration
        = durSum (runBuffer (AudioBuffer.mk0 maxD) (inputs.take n)).chunks ∧
    ((runBuffer (AudioBuffer.mk0 maxD) (inputs.take n)).currentDuration ≤ maxD ∨
      ∃ c, (runBuffer (AudioBuffer.mk0 maxD) (inputs.take n)).chunks = [c] ∧
        maxD < c.duration) ∧
    (inputs.take n ≠ [] → (runBuffer (AudioBuffer.mk0 maxD) (inputs.take n)).chunks ≠ []) := by
  have hinv := BufInv_runBuffer (inputs.take n) (AudioBuffer.mk0 maxD) (BufInv_mk0 maxD hmax)
  have hmx := runBuffer_maxDuration (inputs.take n) (AudioBuffer.mk0 maxD)
  refine ⟨hinv.1, ?_, ?_⟩
  · have := hinv.2
    rwa [hmx] at this
  · intro hne
    exact runBuffer_ne_nil (inputs.take n) (AudioBuffer.mk0 maxD) rfl (Or.inr hne)

/-- Witness for C3 at a concrete input. -/
theorem claim_C3_witness :
    (0:ℚ) ≤ 300 ∧
    ((runBuffer (AudioBuffer.mk0 300) ([⟨[1], 1, false, 0⟩].take 1)).currentDuration
        = durSum (runBuffer (AudioBuffer.mk0 300) ([⟨[1], 1, false, 0⟩].take 1)).chunks ∧
    ((runBuffer (AudioBuffer.mk0 300) ([⟨[1], 1, false, 0⟩].take 1)).currentDuration ≤ 300 ∨
      ∃ c, (runBuffer (AudioBuffer.mk0 300) ([⟨[1], 1, false, 0⟩].take 1)).chunks = [c] ∧
        300 < c.duration) ∧
    (([⟨[1], 1, false, 0⟩] : List BufInput).take 1 ≠ [] →
      (runBuffer (AudioBuffer.mk0 300) ([⟨[1], 1, false, 0⟩].take 1)).chunks ≠ [])) :=
  ⟨by norm_num, claim_C3 300 [⟨[1], 1, false, 0⟩] 1 (by norm_num)⟩

/-! ### Round-trip (C9) -/

theorem foldl_append_data (cs : List Chunk) :
    ∀ acc : List ℚ, cs.foldl (fun acc c => acc ++ c.data) acc
      = acc ++ (cs.map Chunk.data).flatten := by
  induction cs with
  | nil => simp
  | cons c t ih => intro acc; simp [ih]

theorem getAllData_eq (b : AudioBuffer) :
    b.getAllData = (b.chunks.map Chunk.data).flatten := by
  unfold AudioBuffer.getAllData
  split
  · next h => simp_all [List.isEmpty_iff]
  · simpa using foldl_append_data b.chunks []

theorem inputDurSum_cons (i : BufInput) (l : List BufInput) :
    inputDurSum (i :: l) = (i.data.length : ℚ) / i.sampleRate + inputDurSum l := by
  simp [inputDurSum]

theorem inputDurSum_nonneg (l : List BufInput)
    (h : ∀ i ∈ l, (0:ℚ) ≤ (i.data.length : ℚ) / i.sampleRate) : 0 ≤ inputDurSum l := by
  induction l with
  | nil => simp [inputDurSum]
  | cons i t ih =>
    rw [inputDurSum_cons]
    have h1 := h i (by simp)
    have h2 := ih (fun j hj => h j (by simp [hj]))
    linarith

/-- If no eviction can occur (all future durations are non-negative and
the grand total stays within the maximum), `addData` literally appends. -/
theorem runBuffer_no_evict (l : List BufInput) :
    ∀ b : AudioBuffer, b.currentDuration = durSum b.chunks →
      b.discardSilence = false →
      (∀ i ∈ l, (0:ℚ) ≤ (i.data.length : ℚ) / i.sampleRate) →
      durSum b.chunks + inputDurSum l ≤ b.maxDurationSeconds →
      (runBuffer b l).chunks
        = b.chunks ++ l.map (fun i => ⟨i.data, (i.data.length : ℚ) / i.sampleRate, i.now⟩)
  | b, hdur, hd, hpos, hsum => by
    cases l with
    | nil => simp [runBuffer_nil]
    | cons i t =>
      rw [runBuffer_cons,
        addData_eq_append b i.data i.sampleRate i.isSilent i.now (Or.inl hd)]
      have hpos0 := hpos i (by simp)
      have hpost : ∀ j ∈ t, (0:ℚ) ≤ (j.data.length : ℚ) / j.sampleRate :=
        fun j hj => hpos j (by simp [hj])
      have htail : 0 ≤ inputDurSum t := inputDurSum_nonneg t hpost
      rw [inputDurSum_cons] at hsum
      have hfit : b.currentDuration + (i.data.length : ℚ) / i.sampleRate
          ≤ b.maxDurationSeconds := by rw [hdur]; linarith
      rw [enforceMaxDuration_noop b.maxDurationSeconds _ _ hfit]
      rw [runBuffer_no_evict t _
        (by simp [durSum_append, hdur])
        (by simp [hd])
        hpost
        (by simp only [durSum_append]; simp only [hdur] at hfit ⊢; linarith)]
      simp

/-- C9: starting from a fresh buffer, when the appended chunks cannot
trigger eviction, `getAllData` returns exactly the concatenation of the
chunks' samples in append order; and on the fresh (empty) buffer it
returns the empty sequence. -/
theorem claim_C9 (maxD : ℚ) (inputs : List BufInput)
    (hpos : ∀ i ∈ inputs, (0:ℚ) ≤ (i.data.length : ℚ) / i.sampleRate)
    (hsum : inputDurSum inputs ≤ maxD) :
    (runBuffer (AudioBuffer.mk0 maxD) inputs).getAllData
      = (inputs.map BufInput.data).flatten ∧
    (AudioBuffer.mk0 maxD).getAllData = [] := by
  constructor
  · rw [getAllData_eq,
      runBuffer_no_evict inputs (AudioBuffer.mk0 maxD)
        (by simp [AudioBuffer.mk0, durSum]) rfl hpos
        (by simpa [AudioBuffer.mk0, durSum] using hsum)]
    simp [AudioBuffer.mk0, List.map_map, Function.comp_def]
  · rfl

/-- Witness for C9 at a concrete input. -/
theorem claim_C9_witness :
    (∀ i ∈ ([⟨[1, 2], 1, false, 0⟩, ⟨[3], 2, true, 5⟩] : List BufInput),
      (0:ℚ) ≤ (i.data.length : ℚ) / i.sampleRate) ∧
    inputDurSum [⟨[1, 2], 1, false, 0⟩, ⟨[3], 2, true, 5⟩] ≤ 300 ∧
    ((runBuffer (AudioBuffer.mk0 300)
        [⟨[1, 2], 1, false, 0⟩, ⟨[3], 2, true, 5⟩]).getAllData
      = (([⟨[1, 2], 1, false, 0⟩, ⟨[3], 2, true, 5⟩] : List BufInput).map
          BufInput.data).flatten ∧
    (AudioBuffer.mk0 300).getAllData = []) :=
  ⟨by intro i hi; fin_cases hi <;> norm_num,
    by norm_num [inputDurSum],
    claim_C9 300 [⟨[1, 2], 1, false, 0⟩, ⟨[3], 2, true, 5⟩]
      (by intro i hi; fin_cases hi <;> norm_num)
      (by norm_num [inputDurSum])⟩

/-! ### Leading-silence suppression (C6) -/

theorem sameObs_refl (a : AudioBuffer) : sameObs a a :=
  ⟨rfl, rfl, rfl, rfl, rfl⟩

theorem sameObs_trans {a b c : AudioBuffer} (h1 : sameObs a b) (h2 : sameObs b c) :
    sameObs a c := by
  obtain ⟨x1, x2, x3, x4, x5⟩ := h1
  obtain ⟨y1, y2, y3, y4, y5⟩ := h2
  exact ⟨x1.trans y1, x2.trans y2, x3.trans y3, x4.trans y4, x5.trans y5⟩

theorem sameObs_addData (a b : AudioBuffer) (data : List ℚ) (rate : ℚ)
    (s : Bool) (now : ℕ) (h : sameObs a b) :
    sameObs (a.addData data rate s now) (b.addData data rate s now) := by
  obtain ⟨h1, h2, h3, h4, h5⟩ := h
  by_cases hdrop : a.discardSilence = true ∧ a.hasReceivedAudio = false ∧ s = true
  · obtain ⟨hd, hr, hs⟩ := hdrop
    rw [hs, addData_eq_drop a data rate now hd hr,
      addData_eq_drop b data rate now (h4 ▸ hd) (h5 ▸ hr)]
    exact ⟨h1, h2, h3, h4, h5⟩
  · rw [addData_eq_append a data rate s now (not_drop_cond hdrop),
      addData_eq_append b data rate s now
        (not_drop_cond (by rw [h4, h5] at hdrop; exact hdrop))]
    refine ⟨h1, ?_, ?_, h4, by rw [h5, h4]⟩ <;> rw [h1, h2, h3]

theorem sameObs_runBuffer (l : List BufInput) :
    ∀ a b : AudioBuffer, sameObs a b → sameObs (runBuffer a l) (runBuffer b l)
  | a, b, h => by
    cases l with
    | nil => exact h
    | cons i t =>
      rw [runBuffer_cons, runBuffer_cons]
      exact sameObs_runBuffer t _ _ (sameObs_addData a b i.data i.sampleRate i.isSilent i.now h)

theorem addData_drop_sameObs (b : AudioBuffer) (data : List ℚ) (rate : ℚ) (now : ℕ)
    (hd : b.discardSilence = true) (hr : b.hasReceivedAudio = false) :
    sameObs (b.addData data rate true now) b := by
  rw [addData_eq_drop b data rate now hd hr]
  exact ⟨rfl, rfl, rfl, rfl, rfl⟩

theorem runBuffer_drop_pre (pre : List BufInput) :
    ∀ b : AudioBuffer, b.discardSilence = true → b.hasReceivedAudio = false →
      (∀ i ∈ pre, i.isSilent = true) → sameObs (runBuffer b pre) b
  | b, hd, hr, hpre => by
    cases pre with
    | nil => exact sameObs_refl b
    | cons i t =>
      rw [runBuffer_cons]
      have hi : i.isSilent = true := hpre i (by simp)
      have hdrop : sameObs (b.addData i.data i.sampleRate i.isSilent i.now) b := by
        rw [hi]; exact addData_drop_sameObs b i.data i.sampleRate i.now hd hr
      have hrec := runBuffer_drop_pre t (b.addData i.data i.sampleRate i.isSilent i.now)
        (hdrop.2.2.2.1.trans hd) (hdrop.2.2.2.2.trans hr)
        (fun j hj => hpre j (by simp [hj]))
      exact sameObs_trans hrec hdrop

theorem runBuffer_append (b : AudioBuffer) (l1 l2 : List BufInput) :
    runBuffer b (l1 ++ l2) = runBuffer (runBuffer b l1) l2 := by
  simp [runBuffer]

/-- C6: with discard-leading-silence mode on and no non-silent chunk seen
yet, a run of silent chunks is dropped without changing any observable
buffer state; no sample delivered before the first non-silent chunk ever
appears in `getAllData()`; and once a non-silent chunk has arrived (or for
any non-silent chunk) `addData` appends the chunk, which then sits at the
end of the chunk list. -/
theorem claim_C6 (b : AudioBuffer) (pre rest : List BufInput)
    (hd : b.discardSilence = true) (hr : b.hasReceivedAudio = false)
    (hpre : ∀ i ∈ pre, i.isSilent = true) :
    sameObs (runBuffer b pre) b ∧
    (runBuffer b (pre ++ rest)).getAllData = (runBuffer b rest).getAllData ∧
    (∀ (b2 : AudioBuffer) (i : BufInput),
      b2.hasReceivedAudio = true ∨ i.isSilent = false →
      (b2.addData i.data i.sampleRate i.isSilent i.now).chunks.getLast?
        = some ⟨i.data, (i.data.length : ℚ) / i.sampleRate, i.now⟩) := by
  have hpreObs := runBuffer_drop_pre pre b hd hr hpre
  refine ⟨hpreObs, ?_, ?_⟩
  · rw [runBuffer_append]
    have := sameObs_runBuffer rest _ _ hpreObs
    rw [getAllData_eq, getAllData_eq, this.2.1]
  · intro b2 i hcase
    have happ : b2.addData i.data i.sampleRate i.isSilent i.now
        = { b2 with
            sampleRate := if b2.sampleRate.isNone then some i.sampleRate else b2.sampleRate,
            hasReceivedAudio := b2.hasReceivedAudio || b2.discardSilence,
            chunks := (enforceMaxDuration b2.maxDurationSeconds
              (b2.chunks ++ [⟨i.data, (i.data.length : ℚ) / i.sampleRate, i.now⟩])
              (b2.currentDuration + (i.data.length : ℚ) / i.sampleRate)).1,
            currentDuration := (enforceMaxDuration b2.maxDurationSeconds
              (b2.chunks ++ [⟨i.data, (i.data.length : ℚ) / i.sampleRate, i.now⟩])
              (b2.currentDuration + (i.data.length : ℚ) / i.sampleRate)).2 } := by
      rcases hcase with h | h
      · exact addData_eq_append b2 i.data i.sampleRate i.isSilent i.now (Or.inr (Or.inl h))
      · exact addData_eq_append b2 i.data i.sampleRate i.isSilent i.now (Or.inr (Or.inr h))
    rw [happ]
    show (enforceMaxDuration _ _ _).1.getLast? = _
    rw [enforceMaxDuration_getLast _ _ _ (by simp)]
    simp

/-- Witness for C6 at a concrete input. -/
theorem claim_C6_witness :
    ((AudioBuffer.mk0 300).setDiscardInitialSilence true).discardSilence = true ∧
    ((AudioBuffer.mk0 300).setDiscardInitialSilence true).hasReceivedAudio = false ∧
    (∀ i ∈ ([⟨[0], 1, true, 0⟩] : List BufInput), i.isSilent = true) ∧
    (sameObs
      (runBuffer ((AudioBuffer.mk0 300).setDiscardInitialSilence true) [⟨[0], 1, true, 0⟩])
      ((AudioBuffer.mk0 300).setDiscardInitialSilence true) ∧
    (runBuffer ((AudioBuffer.mk0 300).setDiscardInitialSilence true)
        ([⟨[0], 1, true, 0⟩] ++ [⟨[1], 1, false, 1⟩])).getAllData
      = (runBuffer ((AudioBuffer.mk0 300).setDiscardInitialSilence true)
          [⟨[1], 1, false, 1⟩]).getAllData ∧
    (∀ (b2 : AudioBuffer) (i : BufInput),
      b2.hasReceivedAudio = true ∨ i.isSilent = false →
      (b2.addData i.data i.sampleRate i.isSilent i.now).chunks.getLast?
        = some ⟨i.data, (i.data.length : ℚ) / i.sampleRate, i.now⟩)) :=
  ⟨rfl, rfl, by decide,
    claim_C6 ((AudioBuffer.mk0 300).setDiscardInitialSilence true)
      [⟨[0], 1, true, 0⟩] [⟨[1], 1, false, 1⟩] rfl rfl (by decide)⟩

/-! ### Silence tracking lemmas -/

theorem trackSilence_silent_already (st : SilenceTracker) (now : ℕ)
    (h : st.isCurrentlySilent = true) :
    trackSilence st true now =
      if st.silenceDuration ≤ now - st.silenceStartTime then
        ({ st with silenceStartTime := now }, true)
      else (st, false) := by
  unfold trackSilence
  simp [h]

theorem trackSilence_silent_fresh (st : SilenceTracker) (now : ℕ)
    (h : st.isCurrentlySilent = false) (hD : 0 < st.silenceDuration) :
    trackSilence st true now =
      ({ st with isCurrentlySilent := true, silenceStartTime := now }, false) := by
  unfold trackSilence
  rw [h]
  simp [Nat.sub_self]
  omega

/-- The integer ceiling `⌈D / d⌉` compares to `k` exactly as `D` compares
to `k * d`. -/
theorem ceil_le_iff (D d k : ℕ) (hD : 0 < D) (hd : 0 < d) :
    (D - 1) / d + 1 ≤ k ↔ D ≤ k * d := by
  rw [Nat.add_one_le_iff, Nat.div_lt_iff_lt_mul hd]
  omega

/-- C4: on a constant stream of silent chunks of fixed duration `d`
(the k-th chunk analyzed at time `t0 + k * d`), starting from a reset
tracker, after `n + 1` chunks the number of SilenceEvents emitted is
exactly `n / ⌈D / d⌉` — one event each time a further full configured
duration `D` of silence has accumulated, never one per chunk — and the
timer has restarted at the last emission: the stored start time is the
arrival time of the chunk that produced the latest event (`t0` if none
yet). -/
theorem claim_C4 (D d t0 : ℕ) (hD : 0 < D) (hd : 0 < d) (n : ℕ) :
    runSilent t0 d ⟨D, false, 0⟩ (n + 1)
      = (⟨D, true, t0 + ((D - 1) / d + 1) * (n / ((D - 1) / d + 1)) * d⟩,
         n / ((D - 1) / d + 1)) := by
  induction n with
  | zero =>
    show (let p := runSilent t0 d ⟨D, false, 0⟩ 0
          let q := trackSilence p.1 true (t0 + 0 * d)
          (q.1, p.2 + if q.2 then 1 else 0)) = _
    rw [show runSilent t0 d ⟨D, false, 0⟩ 0 = (⟨D, false, 0⟩, 0) from rfl]
    simp only [trackSilence_silent_fresh ⟨D, false, 0⟩ (t0 + 0 * d) rfl hD]
    simp
  | succ k ih =>
    have hm : 0 < (D - 1) / d + 1 := Nat.succ_pos _
    show (let p := runSilent t0 d ⟨D, false, 0⟩ (k + 1)
          let q := trackSilence p.1 true (t0 + (k + 1) * d)
          (q.1, p.2 + if q.2 then 1 else 0)) = _
    rw [ih]
    have hqr := Nat.div_add_mod k ((D - 1) / d + 1)
    have hrlt : k % ((D - 1) / d + 1) < (D - 1) / d + 1 := Nat.mod_lt _ hm
    set m := (D - 1) / d + 1 with hmdef
    set q := k / m with hq
    set r := k % m with hrdef
    have helapsed : t0 + (k + 1) * d - (t0 + m * q * d) = (r + 1) * d := by
      rw [Nat.add_sub_add_left]
      have h1 : m * q ≤ k + 1 := by omega
      have h2 : (k + 1) - m * q = r + 1 := by omega
      rw [← Nat.sub_mul, h2]
    dsimp only
    rw [trackSilence_silent_already _ _ rfl]
    simp only [helapsed]
    rcases Nat.lt_or_ge (r + 1) m with hcase | hcase
    · -- no event: another full duration has not yet elapsed
      have hnofire : ¬ D ≤ (r + 1) * d := by
        intro hcontra
        exact absurd ((ceil_le_iff D d (r + 1) hD hd).mpr hcontra) (by omega)
      rw [if_neg hnofire]
      have hdiv : (k + 1) / m = q := by
        have hk1 : k + 1 = m * q + (r + 1) := by omega
        rw [hk1, Nat.mul_add_div hm, Nat.div_eq_of_lt hcase]
        exact Nat.add_zero _
      simp only [hdiv]
      simp
    · -- event: a further full configured duration of silence elapsed
      have hrm : r + 1 = m := by omega
      have hfire : D ≤ (r + 1) * d := by
        refine (ceil_le_iff D d (r + 1) hD hd).mp (by omega)
      rw [if_pos hfire]
      have hksucc : k + 1 = m * (q + 1) := by
        have : m * (q + 1) = m * q + m := by ring
        omega
      have hdiv : (k + 1) / m = q + 1 := by
        rw [hksucc, Nat.mul_div_cancel_left _ hm]
      simp only [hdiv, if_true]
      rw [← hksucc]

/-- Witness for C4 at concrete values: chunk duration 100 ms, configured
silence duration 500 ms, 13 chunks, 2 events. -/
theorem claim_C4_witness :
    0 < 500 ∧ 0 < 100 ∧
    runSilent 7 100 ⟨500, false, 0⟩ (12 + 1)
      = (⟨500, true, 7 + ((500 - 1) / 100 + 1) * (12 / ((500 - 1) / 100 + 1)) * 100⟩,
         12 / ((500 - 1) / 100 + 1)) :=
  ⟨by decide, by decide, claim_C4 500 100 7 (by decide) (by decide) 12⟩

/-- C8: the amplitude-to-decibel conversion maps 0 to −∞ and 1 to 0 dB,
and is strictly monotone on non-negative amplitudes (amplitude₂ <
amplitude₁ exactly when dB₂ < dB₁); and the RMS volume of any non-empty
chunk is non-negative. -/
theorem claim_C8 :
    amplitudeToDb 0 = ⊥ ∧
    amplitudeToDb 1 = ((0 : ℝ) : WithBot ℝ) ∧
    (∀ a1 a2 : ℝ, 0 ≤ a1 → 0 ≤ a2 →
      (a2 < a1 ↔ amplitudeToDb a2 < amplitudeToDb a1)) ∧
    (∀ data : List ℝ, data ≠ [] → 0 ≤ calculateVolume data) := by
  refine ⟨?_, ?_, ?_, ?_⟩
  · simp [amplitudeToDb]
  · simp [amplitudeToDb]
  · intro a1 a2 h1 h2
    by_cases ha2 : a2 = 0
    · by_cases ha1 : a1 = 0
      · subst ha1; subst ha2
        simp [amplitudeToDb]
      · subst ha2
        have hpos1 : 0 < a1 := lt_of_le_of_ne h1 (Ne.symm ha1)
        simp only [amplitudeToDb, if_pos rfl, if_neg ha1]
        constructor
        · intro _; exact WithBot.bot_lt_coe _
        · intro _; exact hpos1
    · by_cases ha1 : a1 = 0
      · subst ha1
        have hpos2 : 0 < a2 := lt_of_le_of_ne h2 (Ne.symm ha2)
        simp only [amplitudeToDb, if_pos rfl, if_neg ha2]
        constructor
        · intro hcontra; exact absurd hcontra (not_lt.mpr (le_of_lt hpos2))
        · intro hcontra; exact absurd hcontra (by simp)
      · have hpos1 : 0 < a1 := lt_of_le_of_ne h1 (Ne.symm ha1)
        have hpos2 : 0 < a2 := lt_of_le_of_ne h2 (Ne.symm ha2)
        simp only [amplitudeToDb, if_neg ha1, if_neg ha2, WithBot.coe_lt_coe]
        rw [mul_lt_mul_left (by norm_num : (0:ℝ) < 20)]
        exact (Real.logb_lt_logb_iff (by norm_num) hpos2 hpos1).symm
  · intro data _
    exact Real.sqrt_nonneg _

/-- Witness for C8 at concrete amplitudes and a concrete chunk. -/
theorem claim_C8_witness :
    amplitudeToDb 0 = ⊥ ∧
    ((0:ℝ) ≤ 2 ∧ (0:ℝ) ≤ 1) ∧
    ((1:ℝ) < 2 ↔ amplitudeToDb 1 < amplitudeToDb 2) ∧
    (([1] : List ℝ) ≠ [] ∧ 0 ≤ calculateVolume [1]) :=
  ⟨claim_C8.1,
    ⟨by norm_num, by norm_num⟩,
    claim_C8.2.2.1 2 1 (by norm_num) (by norm_num),
    ⟨by simp, claim_C8.2.2.2 [1] (by simp)⟩⟩

/-- C10: constructing the analyzer (or the controller) with explicit 0
for volumeThreshold or silenceDuration stores the defaults −50 dB and
500 ms, not 0, while `updateSettings` with the same explicit 0 stores 0 —
so a 0 passed at construction and a 0 passed via `updateSettings` behave
differently. -/
theorem claim_C10 :
    (AnalyzerConfig.ofOptions (some 0) (some 0)).volumeThreshold = -50 ∧
    (AnalyzerConfig.ofOptions (some 0) (some 0)).silenceDuration = 500 ∧
    vocalMirrorSettings (some 0) (some 0) = (-50, 500) ∧
    ((AnalyzerConfig.ofOptions (some 0) (some 0)).updateSettings
      (some 0) (some 0)).volumeThreshold = 0 ∧
    ((AnalyzerConfig.ofOptions (some 0) (some 0)).updateSettings
      (some 0) (some 0)).silenceDuration = 0 ∧
    (AnalyzerConfig.ofOptions (some 0) (some 0)).volumeThreshold ≠
      ((AnalyzerConfig.ofOptions (some 0) (some 0)).updateSettings
        (some 0) (some 0)).volumeThreshold ∧
    (AnalyzerConfig.ofOptions (some 0) (some 0)).silenceDuration ≠
      ((AnalyzerConfig.ofOptions (some 0) (some 0)).updateSettings
        (some 0) (some 0)).silenceDuration := by
  refine ⟨?_, ?_, ?_, ?_, ?_, ?_, ?_⟩ <;> decide

/-- C1 (amended): `stop()` from every state — `listening`, `recording`,
`playing`, and also `error` — results in state `ready` with an empty
buffer (no chunks, duration 0); no explicit reset is needed to leave
`error`. -/
theorem claim_C1 (m : MirrorState) :
    (VocalMirror.stop m).state = .ready ∧
    (VocalMirror.stop m).buffer.chunks = [] ∧
    (VocalMirror.stop m).buffer.getDuration = 0 ∧
    (VocalMirror.stop m).buffer.getSampleCount = 0 := by
  unfold VocalMirror.stop
  dsimp only
  split_ifs <;>
    simp [setState, recorderStopRecording, playbackStop, AudioBuffer.clear,
      AudioBuffer.getDuration, AudioBuffer.getSampleCount]

/-- Counterexample to C1 as stated: with the controller in the `error`
state, `stop()` does not leave the state `error` — it drives it to
`ready`. -/
theorem claim_C1_counterexample :
    errorMirror.state = VMState.error ∧
    (VocalMirror.stop errorMirror).state ≠ VMState.error ∧
    (VocalMirror.stop errorMirror).state = VMState.ready := by
  refine ⟨rfl, ?_, ?_⟩ <;> decide

/-- C2 (amended): every error funnelled through `handleError` invokes the
error callback and enters the `error` state at that moment; but when a
playback start is rejected by the sink (`playAudio` returns `false`), the
tail of `doTriggerPlayback` overwrites the state with `ready`, so the
controller's final state after a rejected playback start is `ready` (with
the error callback having fired), not `error`. -/
theorem claim_C2 :
    (∀ m : MirrorState,
      (handleError m).state = .error ∧ (handleError m).errorCalls = m.errorCalls + 1) ∧
    (∀ m : MirrorState, m.buffer.getDuration ≠ 0 →
      (doTriggerPlayback false m).state = .ready ∧
      (doTriggerPlayback false m).errorCalls = m.errorCalls + 1) := by
  constructor
  · intro m
    exact ⟨rfl, rfl⟩
  · intro m h
    unfold doTriggerPlayback
    rw [if_neg h]
    exact ⟨rfl, rfl⟩

/-- Witness for C2 at a concrete controller state. -/
theorem claim_C2_witness :
    ((handleError recordingMirror).state = .error ∧
      (handleError recordingMirror).errorCalls = recordingMirror.errorCalls + 1) ∧
    recordingMirror.buffer.getDuration ≠ 0 ∧
    ((doTriggerPlayback false recordingMirror).state = .ready ∧
      (doTriggerPlayback false recordingMirror).errorCalls
        = recordingMirror.errorCalls + 1) :=
  ⟨claim_C2.1 recordingMirror, by decide,
    claim_C2.2 recordingMirror (by decide)⟩

/-- Counterexample to C2 as stated: at a concrete `recording` state with
a non-empty buffer, a playback start rejected by the sink fires the error
callback but leaves the controller's final state `ready`, not `error`. -/
theorem claim_C2_counterexample :
    (doTriggerPlayback false recordingMirror).state ≠ VMState.error ∧
    (doTriggerPlayback false recordingMirror).state = VMState.ready ∧
    (doTriggerPlayback false recordingMirror).errorCalls
      = recordingMirror.errorCalls + 1 := by
  refine ⟨?_, ?_, ?_⟩ <;> decide

/-- C5: a chunk classified non-silent delivered in state `playing` makes
the controller invoke the playback driver's `stop()`, clear the buffer,
re-enable leading-silence discard, and enter `listening`; capture is not
stopped at any point (the recorder keeps recording and no stop reaches
it). -/
theorem claim_C5 (m : MirrorState) (audioData : List ℚ) (sampleRate : ℚ)
    (now : ℕ) (sinkOk : Bool) (h : m.state = .playing) :
    (VocalMirror.handleAudioData m audioData sampleRate false now true sinkOk).state
        = .listening ∧
    (VocalMirror.handleAudioData m audioData sampleRate false now true sinkOk).buffer.chunks
        = [] ∧
    (VocalMirror.handleAudioData m audioData sampleRate false now true sinkOk).buffer.getDuration
        = 0 ∧
    (VocalMirror.handleAudioData m audioData sampleRate false now true sinkOk).buffer.discardSilence
        = true ∧
    (VocalMirror.handleAudioData m audioData sampleRate false now true sinkOk).buffer.hasReceivedAudio
        = false ∧
    (VocalMirror.handleAudioData m audioData sampleRate false now true sinkOk).playbackStopCalls
        = m.playbackStopCalls + 1 ∧
    (VocalMirror.handleAudioData m audioData sampleRate false now true sinkOk).playbackPlaying
        = false ∧
    (VocalMirror.handleAudioData m audioData sampleRate false now true sinkOk).recorderStopCalls
        = m.recorderStopCalls ∧
    (VocalMirror.handleAudioData m audioData sampleRate false now true sinkOk).recorderRecording
        = true := by
  unfold VocalMirror.handleAudioData
  rw [h]
  simp [autoStartListening, playbackStop, analyzerReset, setState,
    AudioBuffer.clear, AudioBuffer.setDiscardInitialSilence, AudioBuffer.getDuration]

/-- Witness for C5 at a concrete `playing` state. -/
theorem claim_C5_witness :
    playingMirror.state = VMState.playing ∧
    (VocalMirror.handleAudioData playingMirror [1] 1 false 3 true true).state
        = .listening ∧
    (VocalMirror.handleAudioData playingMirror [1] 1 false 3 true true).buffer.chunks
        = [] ∧
    (VocalMirror.handleAudioData playingMirror [1] 1 false 3 true true).playbackStopCalls
        = playingMirror.playbackStopCalls + 1 ∧
    (VocalMirror.handleAudioData playingMirror [1] 1 false 3 true true).recorderStopCalls
        = playingMirror.recorderStopCalls ∧
    (VocalMirror.handleAudioData playingMirror [1] 1 false 3 true true).recorderRecording
        = true := by
  have h := claim_C5 playingMirror [1] 1 3 true rfl
  exact ⟨rfl, h.1, h.2.1, h.2.2.2.2.2.1, h.2.2.2.2.2.2.2.1, h.2.2.2.2.2.2.2.2⟩

/-- C7: from `ready` (initialized), the start command enters `listening`
with the buffer cleared and leading-silence discard enabled; in
`listening`, a chunk classified non-silent enters `recording` and the
triggering chunk itself is appended to the buffer; a chunk classified
silent leaves the controller state — and the whole controller — exactly
as it was (nothing is buffered). -/
theorem claim_C7 :
    (∀ m : MirrorState, m.isInitialized = true → m.state = .ready →
      (VocalMirror.startRecording true true m).state = .listening ∧
      (VocalMirror.startRecording true true m).buffer.chunks = [] ∧
      (VocalMirror.startRecording true true m).buffer.getDuration = 0 ∧
      (VocalMirror.startRecording true true m).buffer.discardSilence = true ∧
      (VocalMirror.startRecording true true m).buffer.hasReceivedAudio = false) ∧
    (∀ (m : MirrorState) (audioData : List ℚ) (sampleRate : ℚ) (now : ℕ)
        (recStartOk sinkOk : Bool),
      m.state = .listening → m.buffer.chunks = [] →
      (VocalMirror.handleAudioData m audioData sampleRate false now recStartOk sinkOk).state
          = .recording ∧
      (VocalMirror.handleAudioData m audioData sampleRate false now recStartOk sinkOk).buffer.chunks
          = [⟨audioData, (audioData.length : ℚ) / sampleRate, now⟩]) ∧
    (∀ (m : MirrorState) (audioData : List ℚ) (sampleRate : ℚ) (now : ℕ)
        (recStartOk sinkOk : Bool),
      m.state = .listening →
      (VocalMirror.handleAudioData m audioData sampleRate true now recStartOk sinkOk).state
          = .listening ∧
      (VocalMirror.handleAudioData m audioData sampleRate true now recStartOk sinkOk).buffer
          = m.buffer) := by
  refine ⟨?_, ?_, ?_⟩
  · intro m hinit hstate
    unfold VocalMirror.startRecording
    rw [hinit]
    simp [analyzerReset, setState, AudioBuffer.clear,
      AudioBuffer.setDiscardInitialSilence, AudioBuffer.getDuration]
  · intro m audioData sampleRate now recStartOk sinkOk hstate hempty
    have happ := addData_eq_append m.buffer audioData sampleRate false now
      (Or.inr (Or.inr rfl))
    have hchunks : (m.buffer.addData audioData sampleRate false now).chunks
        = (enforceMaxDuration m.buffer.maxDurationSeconds
            (m.buffer.chunks ++ [⟨audioData, (audioData.length : ℚ) / sampleRate, now⟩])
            (m.buffer.currentDuration + (audioData.length : ℚ) / sampleRate)).1 := by
      rw [happ]
    constructor
    · unfold VocalMirror.handleAudioData
      rw [hstate]
      simp [transitionToRecording, hstate, setState]
    · unfold VocalMirror.handleAudioData
      rw [hstate]
      simp [transitionToRecording, hstate, setState, hchunks, hempty, enforceMaxDuration]
  · intro m audioData sampleRate now recStartOk sinkOk hstate
    constructor <;>
      · unfold VocalMirror.handleAudioData
        rw [hstate]
        simp [hstate]

/-- Witness for C7 at concrete controller states. -/
theorem claim_C7_witness :
    (readyMirror.isInitialized = true ∧ readyMirror.state = .ready ∧
      (VocalMirror.startRecording true true readyMirror).state = .listening ∧
      (VocalMirror.startRecording true true readyMirror).buffer.chunks = []) ∧
    (listeningMirror.state = .listening ∧ listeningMirror.buffer.chunks = [] ∧
      (VocalMirror.handleAudioData listeningMirror [1] 1 false 3 true true).state
          = .recording ∧
      (VocalMirror.handleAudioData listeningMirror [1] 1 false 3 true true).buffer.chunks
          = [⟨[1], ((([1] : List ℚ).length : ℚ)) / 1, 3⟩]) ∧
    ((VocalMirror.handleAudioData listeningMirror [1] 1 true 3 true true).state
        = .listening ∧
      (VocalMirror.handleAudioData listeningMirror [1] 1 true 3 true true).buffer
        = listeningMirror.buffer) :=
  ⟨⟨rfl, rfl, (claim_C7.1 readyMirror rfl rfl).1, (claim_C7.1 readyMirror rfl rfl).2.1⟩,
    ⟨rfl, rfl,
      (claim_C7.2.1 listeningMirror [1] 1 3 true true rfl rfl).1,
      (claim_C7.2.1 listeningMirror [1] 1 3 true true rfl rfl).2⟩,
    claim_C7.2.2 listeningMirror [1] 1 3 true true rfl⟩

end VocalMirrorSpec
